import Mathlib

/-!
Verification of the server-side file actions of the StoreIt repository
(`src/lib/actions/file.actions.ts`).

The module is a sequential orchestration of two external backends (object
storage and a document database).  We embed it shallowly: each backend call's
outcome is a field of a `Backend` structure (`Except JsError _` models the
JavaScript promise resolving or rejecting), and each action returns its
result together with the ordered list of backend calls it performed
(`List Event`).  JSON timestamps are modelled as natural numbers (epoch
milliseconds) and the `""` unset sentinel for `latestDate` as `none`.
-/

namespace StoreIt

/-- A JavaScript error value, identified by its message. -/
structure JsError where
  message : String
deriving DecidableEq

/-- `handleError` from the source: it throws the original error unchanged;
the `message` argument is ignored (the error is not wrapped). -/
def handleError (error : JsError) (message : String) : JsError :=
  error

/-- `parseStringify` (from `lib/utils`): a JSON round-trip, which on the plain
data values this module passes through it is the identity. -/
def parseStringify {α : Type} (x : α) : α := x

/-- The ambient Appwrite configuration (ids read from the environment). -/
structure AppwriteConfig where
  databaseId : String
  filesCollectionId : String
  bucketId : String

/-- Concrete stand-ins for the environment-provided ids; no behaviour in this
module depends on their values, only on their being threaded through calls. -/
def appwriteConfig : AppwriteConfig :=
  { databaseId := "databaseId"
    filesCollectionId := "filesCollectionId"
    bucketId := "bucketId" }

/-- The current user document as used by this module (`$id` and `email`). -/
structure UserDoc where
  id : String
  email : String
deriving DecidableEq

/-- The blob metadata returned by `storage.createFile`
(`$id`, `name`, `sizeOriginal`). -/
structure BucketFile where
  id : String
  name : String
  sizeOriginal : Nat
deriving DecidableEq

/-- An opaque document returned by the document database. -/
structure Doc where
  id : String
deriving DecidableEq

/-- A file record as read back from the files collection: the fields the
Storage Aggregator touches (`type`, `size`, `$updatedAt`).  Timestamps are
modelled as epoch milliseconds. -/
structure RawFile where
  type : String
  size : Nat
  updatedAt : Nat
deriving DecidableEq

/-- The result of `databases.listDocuments`. -/
structure DocumentList where
  documents : List RawFile
deriving DecidableEq

/-- The `{ status: "success" }` marker returned by `deleteFile`. -/
structure StatusRes where
  status : String
deriving DecidableEq

/-- Appwrite query predicates, as constructed by this module:
`Query.or`, `Query.equal` (list of values), `Query.contains` with a list of
values (`users`) or a single string (`name`), `Query.limit`,
`Query.orderAsc`, `Query.orderDesc`. -/
inductive Query where
  | orQ (queries : List Query)
  | equal (field : String) (values : List String)
  | containsL (field : String) (values : List String)
  | containsS (field : String) (value : String)
  | limit (n : Nat)
  | orderAsc (field : String)
  | orderDesc (field : String)

/-- The document payload built by `uploadFile` for `databases.createDocument`. -/
structure FileDocument where
  type : String
  name : String
  url : String
  extension : String
  size : Nat
  owner : String
  accountId : String
  users : List String
  bucketFileId : String
deriving DecidableEq

/-- Split a character list at every occurrence of `sep`, keeping empty
segments — the semantics of JavaScript `String.prototype.split` with a
single-character separator. -/
def splitOnChar (sep : Char) : List Char → List (List Char)
  | [] => [[]]
  | c :: cs =>
    if c = sep then [] :: splitOnChar sep cs
    else
      match splitOnChar sep cs with
      | [] => [[c]]
      | seg :: segs => (c :: seg) :: segs

/-- `sort.split("-")` from the source: split at every hyphen. -/
def splitDash (s : String) : List String :=
  (splitOnChar '-' s.toList).map String.mk

/-- A field value in an update payload (`name` is a string, `users` a string
list). -/
inductive FieldVal where
  | str (s : String)
  | strs (l : List String)
deriving DecidableEq

/-- One backend call performed by an action, in the order the source awaits
them. -/
inductive Event where
  | createFile (bucket : String)
  | createDocument (db coll : String) (doc : FileDocument)
  | deleteBlob (bucket fileId : String)
  | deleteDocument (db coll fileId : String)
  | listDocuments (db coll : String) (queries : List Query)
  | updateDocument (db coll fileId : String) (data : List (String × FieldVal))
  | revalidate (path : String)

/-- The behaviour of the two external backends and the session provider for one
action invocation: each field gives the outcome of the corresponding call
(`.ok` = the promise resolves, `.error` = it rejects). -/
structure Backend where
  createFileResult : Except JsError BucketFile
  createDocumentResult : Except JsError Doc
  deleteBlobResult : String → String → Except JsError Unit
  deleteDocumentResult : Except JsError Doc
  updateDocumentResult : String → List (String × FieldVal) → Except JsError Doc
  listDocumentsResult : List Query → Except JsError DocumentList
  currentUser : Option UserDoc

/-- Modelled from the spec: `getFileType` and `constructFileUrl` live in
`lib/utils`, which is not part of this module's source.  The spec only says
`type`/`extension` are derived from the file name and `url` deterministically
from the blob id, so they are kept abstract as parameters. -/
structure UtilsFns where
  getFileTypeType : String → String
  getFileTypeExtension : String → String
  constructFileUrl : String → String

/-- The argument `file` of `uploadFile`; only its name is read by this module
(the bytes go straight to the storage backend). -/
structure FileUpload where
  name : String
deriving DecidableEq

/-- The `fileDocument` object literal built by `uploadFile`. -/
def uploadFileDocument (utils : UtilsFns) (bucketFile : BucketFile)
    (ownerId accountId : String) : FileDocument :=
  { type := utils.getFileTypeType bucketFile.name
    name := bucketFile.name
    url := utils.constructFileUrl bucketFile.id
    extension := utils.getFileTypeExtension bucketFile.name
    size := bucketFile.sizeOriginal
    owner := ownerId
    accountId := accountId
    users := []
    bucketFileId := bucketFile.id }

/-- `uploadFile`: create the blob, then the document; if document creation
fails, delete the just-created blob (`.catch` handler) and rethrow; the outer
`catch` rethrows any error via `handleError`. -/
def uploadFile (be : Backend) (utils : UtilsFns) (file : FileUpload)
    (ownerId accountId path : String) :
    Except JsError Doc × List Event :=
  match be.createFileResult with
  | .error e =>
      (.error (handleError e "Failed to upload file"),
       [Event.createFile appwriteConfig.bucketId])
  | .ok bucketFile =>
      let fileDocument := uploadFileDocument utils bucketFile ownerId accountId
      let evs := [Event.createFile appwriteConfig.bucketId,
                  Event.createDocument appwriteConfig.databaseId
                    appwriteConfig.filesCollectionId fileDocument]
      match be.createDocumentResult with
      | .error e =>
          -- the .catch handler: compensate, then handleError rethrows;
          -- if the compensating delete itself rejects, that error propagates
          match be.deleteBlobResult appwriteConfig.bucketId bucketFile.id with
          | .ok _ =>
              (.error (handleError (handleError e "Failed to create file document")
                        "Failed to upload file"),
               evs ++ [Event.deleteBlob appwriteConfig.bucketId bucketFile.id])
          | .error e2 =>
              (.error (handleError e2 "Failed to upload file"),
               evs ++ [Event.deleteBlob appwriteConfig.bucketId bucketFile.id])
      | .ok newFile =>
          (.ok (parseStringify newFile), evs ++ [Event.revalidate path])

/-- `createQueries`: the base owner-or-shared visibility predicate, then the
conditional type / search / limit / sort predicates, in source order.  JS
truthiness: `searchText` and `sort` test nonempty, `limit` tests nonzero.
`sort.split("-")` splits on every hyphen; the destructuring
`[sortBy, orderBy]` takes the first two components (a missing second component
is `undefined`, which compares unequal to `"asc"`, modelled by `""`). -/
def createQueries (currentUser : UserDoc) (types : List String)
    (searchText : String) (sort : String) (limit : Option Nat) : List Query :=
  let queries : List Query :=
    [Query.orQ [Query.equal "owner" [currentUser.id],
                Query.containsL "users" [currentUser.email]]]
  let queries :=
    if types.length > 0 then queries ++ [Query.equal "type" types] else queries
  let queries :=
    if searchText ≠ "" then queries ++ [Query.containsS "name" searchText]
    else queries
  let queries :=
    match limit with
    | some n => if n ≠ 0 then queries ++ [Query.limit n] else queries
    | none => queries
  let queries :=
    if sort ≠ "" then
      let parts := splitDash sort
      let sortBy := parts.headD ""
      let orderBy := parts.getD 1 ""
      queries ++
        [if orderBy = "asc" then Query.orderAsc sortBy else Query.orderDesc sortBy]
    else queries
  queries

/-- The caller-facing argument of `getFiles`; `none` means the caller omitted
the field, triggering the destructuring defaults. -/
structure GetFilesProps where
  types : Option (List String)
  searchText : Option String
  sort : Option String
  limit : Option Nat

/-- The query list `getFiles` passes to `listDocuments`, after applying the
destructuring defaults `types = []`, `searchText = ""`,
`sort = "$createdAt-desc"`. -/
def getFilesQueries (currentUser : UserDoc) (p : GetFilesProps) : List Query :=
  createQueries currentUser (p.types.getD []) (p.searchText.getD "")
    (p.sort.getD "$createdAt-desc") p.limit

/-- `getFiles`: resolve the current user (throw `"User not found"` if absent),
build the queries, run `listDocuments`, return its result. -/
def getFiles (be : Backend) (p : GetFilesProps) :
    Except JsError DocumentList × List Event :=
  match be.currentUser with
  | none =>
      (.error (handleError (JsError.mk "User not found") "Failed to get files"), [])
  | some currentUser =>
      let queries := getFilesQueries currentUser p
      match be.listDocumentsResult queries with
      | .error e =>
          (.error (handleError e "Failed to get files"),
           [Event.listDocuments appwriteConfig.databaseId
              appwriteConfig.filesCollectionId queries])
      | .ok files =>
          (.ok (parseStringify files),
           [Event.listDocuments appwriteConfig.databaseId
              appwriteConfig.filesCollectionId queries])

/-- `renameFile`: compose the new name and update only the `name` field. -/
def renameFile (be : Backend) (fileId name extension path : String) :
    Except JsError Doc × List Event :=
  let newName := name ++ "." ++ extension
  let data : List (String × FieldVal) := [("name", FieldVal.str newName)]
  let ev := Event.updateDocument appwriteConfig.databaseId
    appwriteConfig.filesCollectionId fileId data
  match be.updateDocumentResult fileId data with
  | .error e => (.error (handleError e "Failed to rename file"), [ev])
  | .ok updatedFile =>
      (.ok (parseStringify updatedFile), [ev, Event.revalidate path])

/-- `updateFileUsers`: overwrite the `users` field with the given emails. -/
def updateFileUsers (be : Backend) (fileId : String) (emails : List String)
    (path : String) : Except JsError Doc × List Event :=
  let data : List (String × FieldVal) := [("users", FieldVal.strs emails)]
  let ev := Event.updateDocument appwriteConfig.databaseId
    appwriteConfig.filesCollectionId fileId data
  match be.updateDocumentResult fileId data with
  | .error e => (.error (handleError e "Failed to rename file"), [ev])
  | .ok updatedFile =>
      (.ok (parseStringify updatedFile), [ev, Event.revalidate path])

/-- `deleteFile`: delete the document; only if that resolved (a resolved
document is a JS object, hence truthy, so the `if (deletedFile)` guard is
taken) delete the blob; return `{ status: "success" }`. -/
def deleteFile (be : Backend) (fileId bucketFileId path : String) :
    Except JsError StatusRes × List Event :=
  let ddEv := Event.deleteDocument appwriteConfig.databaseId
    appwriteConfig.filesCollectionId fileId
  match be.deleteDocumentResult with
  | .error e => (.error (handleError e "Failed to rename file"), [ddEv])
  | .ok _deletedFile =>
      match be.deleteBlobResult appwriteConfig.bucketId bucketFileId with
      | .error e =>
          (.error (handleError e "Failed to rename file"),
           [ddEv, Event.deleteBlob appwriteConfig.bucketId bucketFileId])
      | .ok _ =>
          (.ok (parseStringify (StatusRes.mk "success")),
           [ddEv, Event.deleteBlob appwriteConfig.bucketId bucketFileId,
            Event.revalidate path])

/-- One per-type bucket of the `totalSpace` accumulator.  The `""` unset
sentinel for `latestDate` is modelled as `none`. -/
structure SpaceBucket where
  size : Nat
  latestDate : Option Nat
deriving DecidableEq

/-- The `totalSpace` accumulator of `getTotalSpaceUsed`. -/
structure TotalSpace where
  image : SpaceBucket
  document : SpaceBucket
  video : SpaceBucket
  audio : SpaceBucket
  other : SpaceBucket
  used : Nat
  all : Nat
deriving DecidableEq

/-- The initial `totalSpace` object literal. -/
def initialTotalSpace : TotalSpace :=
  { image := { size := 0, latestDate := none }
    document := { size := 0, latestDate := none }
    video := { size := 0, latestDate := none }
    audio := { size := 0, latestDate := none }
    other := { size := 0, latestDate := none }
    used := 0
    all := 2 * 1024 * 1024 * 1024 }

/-- The five type-category keys of the `totalSpace` object. -/
inductive FType where
  | image
  | document
  | video
  | audio
  | other
deriving DecidableEq

/-- The property keys every plain JavaScript object literal inherits from
`Object.prototype` (the standard twelve in Node/V8).  A dynamic lookup
`totalSpace[fileType]` with one of these as `fileType` returns the inherited
member — an extensible object — instead of `undefined`. -/
def objectPrototypeKeys : List String :=
  ["constructor", "__defineGetter__", "__defineSetter__", "hasOwnProperty",
   "__lookupGetter__", "__lookupSetter__", "isPrototypeOf",
   "propertyIsEnumerable", "toString", "valueOf", "__proto__",
   "toLocaleString"]

/-- What the dynamic index `totalSpace[fileType]` resolves to. -/
inductive KeyLookup where
  | bucket (k : FType)
  | primitive
  | inherited
  | absent
deriving DecidableEq

/-- Dynamic indexing `totalSpace[fileType]`, with full JavaScript property
semantics: the five type keys index their bucket; the own keys `used`/`all`
yield a number primitive (so the strict-mode write `.size += …` throws a
`TypeError`); a key inherited from `Object.prototype` (e.g. `"toString"`)
yields the inherited object, on which the property writes succeed; any other
string yields `undefined` (so the property read in `.size += …` throws a
`TypeError`). -/
def totalSpaceKey : String → KeyLookup
  | "image" => KeyLookup.bucket FType.image
  | "document" => KeyLookup.bucket FType.document
  | "video" => KeyLookup.bucket FType.video
  | "audio" => KeyLookup.bucket FType.audio
  | "other" => KeyLookup.bucket FType.other
  | "used" => KeyLookup.primitive
  | "all" => KeyLookup.primitive
  | s => if s ∈ objectPrototypeKeys then KeyLookup.inherited else KeyLookup.absent

/-- Read the bucket at a known key. -/
def getB (ts : TotalSpace) : FType → SpaceBucket
  | FType.image => ts.image
  | FType.document => ts.document
  | FType.video => ts.video
  | FType.audio => ts.audio
  | FType.other => ts.other

/-- Write the bucket at a known key. -/
def setB (ts : TotalSpace) : FType → SpaceBucket → TotalSpace
  | FType.image, b => { ts with image := b }
  | FType.document, b => { ts with document := b }
  | FType.video, b => { ts with video := b }
  | FType.audio, b => { ts with audio := b }
  | FType.other, b => { ts with other := b }

/-- The `latestDate` update: replace when unset
(`!totalSpace[fileType].latestDate`) or when the record's timestamp is
strictly later. -/
def updateLatest (cur : Option Nat) (t : Nat) : Option Nat :=
  match cur with
  | none => some t
  | some c => if c < t then some t else some c

/-- One iteration of the `forEach` body for a record whose type resolved to a
known bucket: add the size to the bucket and to `used`, update the bucket's
`latestDate`. -/
def addKnown (ts : TotalSpace) (k : FType) (f : RawFile) : TotalSpace :=
  let b := getB ts k
  let ts1 := setB ts k
    { size := b.size + f.size
      latestDate := updateLatest b.latestDate f.updatedAt }
  { ts1 with used := ts1.used + f.size }

/-- The strict-mode `TypeError` aborting the `forEach` body: reading a
property of `undefined` (absent key) or creating a property on a number
primitive (`used`/`all`).  The two sites produce differently worded
`TypeError`s; the model does not distinguish the wording. -/
def typeError : JsError :=
  { message := "TypeError" }

/-- One iteration of the `forEach` body, by what the dynamic index resolves
to: a bucket key updates the bucket and `used`; the `used`/`all` number keys
and absent keys throw on the `.size` property access; a key inherited from
`Object.prototype` lands the `.size`/`.latestDate` writes on the inherited
object (shared state outside `totalSpace`), so the returned totals change
only by `used += file.size`. -/
def addFile (ts : TotalSpace) (f : RawFile) : Except JsError TotalSpace :=
  match totalSpaceKey f.type with
  | KeyLookup.bucket k => Except.ok (addKnown ts k f)
  | KeyLookup.primitive => Except.error typeError
  | KeyLookup.inherited => Except.ok { ts with used := ts.used + f.size }
  | KeyLookup.absent => Except.error typeError

/-- The `files.documents.forEach` loop, record by record; a thrown `TypeError`
aborts the loop and propagates. -/
def aggregate (ts : TotalSpace) : List RawFile → Except JsError TotalSpace
  | [] => Except.ok ts
  | f :: rest =>
    match addFile ts f with
    | Except.error e => Except.error e
    | Except.ok ts1 => aggregate ts1 rest

/-- The `files.documents.forEach` aggregation of `getTotalSpaceUsed`, from the
initial `totalSpace` literal. -/
def aggregateFiles (files : List RawFile) : Except JsError TotalSpace :=
  aggregate initialTotalSpace files

/-- `getTotalSpaceUsed`: resolve the current user (throw
`"User is not authenticated."` if absent), list the documents owned by the
user, aggregate them. -/
def getTotalSpaceUsed (be : Backend) :
    Except JsError TotalSpace × List Event :=
  match be.currentUser with
  | none =>
      (.error (handleError (JsError.mk "User is not authenticated.")
        "Error calculating total space used:, "), [])
  | some currentUser =>
      let queries := [Query.equal "owner" [currentUser.id]]
      let ev := Event.listDocuments appwriteConfig.databaseId
        appwriteConfig.filesCollectionId queries
      match be.listDocumentsResult queries with
      | .error e =>
          (.error (handleError e "Error calculating total space used:, "), [ev])
      | .ok files =>
          match aggregateFiles files.documents with
          | .error e =>
              (.error (handleError e "Error calculating total space used:, "),
               [ev])
          | .ok totalSpace => (.ok (parseStringify totalSpace), [ev])

/-! Helper lemmas about the aggregation loop. -/

/-- Does the `forEach` body throw for this record?  True exactly for the keys
whose lookup yields no assignable object: the `used`/`all` number primitives
and every string absent from the object and its prototype. -/
def addFileThrows (f : RawFile) : Bool :=
  match totalSpaceKey f.type with
  | KeyLookup.bucket _ => false
  | KeyLookup.primitive => true
  | KeyLookup.inherited => false
  | KeyLookup.absent => true

/-- The total (non-throwing) variant of one loop iteration, used to reason
about runs in which no record throws: throwing keys act as a no-op here. -/
def addTotal (ts : TotalSpace) (f : RawFile) : TotalSpace :=
  match totalSpaceKey f.type with
  | KeyLookup.bucket k => addKnown ts k f
  | KeyLookup.inherited => { ts with used := ts.used + f.size }
  | _ => ts

theorem updateLatest_some (c t : Nat) :
    updateLatest (some c) t = some (max c t) := by
  simp only [updateLatest]
  split_ifs <;> simp <;> omega

theorem updateLatest_none (t : Nat) : updateLatest none t = some t := rfl

theorem updateLatest_comm (cur : Option Nat) (t1 t2 : Nat) :
    updateLatest (updateLatest cur t1) t2 = updateLatest (updateLatest cur t2) t1 := by
  cases cur <;>
    simp only [updateLatest_none, updateLatest_some, Option.some.injEq] <;> omega

theorem addKnown_comm (ts : TotalSpace) (k1 k2 : FType) (f1 f2 : RawFile) :
    addKnown (addKnown ts k1 f1) k2 f2 = addKnown (addKnown ts k2 f2) k1 f1 := by
  cases k1 <;> cases k2 <;>
    simp [addKnown, getB, setB, updateLatest_comm] <;> omega

theorem addKnown_used (ts : TotalSpace) (k : FType) (f : RawFile) (s : Nat) :
    addKnown { ts with used := ts.used + s } k f =
      { addKnown ts k f with used := (addKnown ts k f).used + s } := by
  cases k <;> simp [addKnown, getB, setB] <;> omega

theorem addTotal_comm (ts : TotalSpace) (f1 f2 : RawFile) :
    addTotal (addTotal ts f1) f2 = addTotal (addTotal ts f2) f1 := by
  unfold addTotal
  cases h1 : totalSpaceKey f1.type <;> cases h2 : totalSpaceKey f2.type <;>
    simp [h1, h2, addKnown_comm, addKnown_used] <;> omega

theorem aggregate_of_all_known (l : List RawFile)
    (h : ∀ f ∈ l, addFileThrows f = false) (ts : TotalSpace) :
    aggregate ts l = Except.ok (List.foldl addTotal ts l) := by
  induction l generalizing ts with
  | nil => rfl
  | cons a rest ih =>
    have hrest : ∀ f ∈ rest, addFileThrows f = false := by
      intro f hf
      exact h f (by simp [hf])
    have ha := h a (by simp)
    cases hk : totalSpaceKey a.type with
    | bucket k => simp [aggregate, addFile, hk, addTotal, ih hrest]
    | primitive => simp [addFileThrows, hk] at ha
    | inherited => simp [aggregate, addFile, hk, addTotal, ih hrest]
    | absent => simp [addFileThrows, hk] at ha

theorem aggregate_of_throwing (l : List RawFile)
    (h : ∃ f ∈ l, addFileThrows f = true) (ts : TotalSpace) :
    aggregate ts l = Except.error typeError := by
  induction l generalizing ts with
  | nil => simp at h
  | cons a rest ih =>
    obtain ⟨f, hf, hthrow⟩ := h
    cases ha : totalSpaceKey a.type with
    | bucket k =>
      rcases List.mem_cons.mp hf with rfl | hmem
      · simp [addFileThrows, ha] at hthrow
      · simp [aggregate, addFile, ha]
        exact ih ⟨f, hmem, hthrow⟩ _
    | primitive => simp [aggregate, addFile, ha]
    | inherited =>
      rcases List.mem_cons.mp hf with rfl | hmem
      · simp [addFileThrows, ha] at hthrow
      · simp [aggregate, addFile, ha]
        exact ih ⟨f, hmem, hthrow⟩ _
    | absent => simp [aggregate, addFile, ha]

/-- The sort predicate appended by `createQueries` when `sort` is nonempty. -/
theorem createQueries_sort_mem (u : UserDoc) (types : List String)
    (searchText sort : String) (limit : Option Nat) (h : sort ≠ "") :
    (if (splitDash sort).getD 1 "" = "asc"
      then Query.orderAsc ((splitDash sort).headD "")
      else Query.orderDesc ((splitDash sort).headD "")) ∈
      createQueries u types searchText sort limit := by
  unfold createQueries
  cases limit <;> dsimp only <;> split_ifs <;> simp_all

/-! Concrete fixtures used by witnesses and counterexamples. -/

/-- A concrete current user. -/
def user0 : UserDoc := { id := "user0", email := "user0@example.com" }

/-- A concrete blob as returned by `storage.createFile`. -/
def bucketFile0 : BucketFile :=
  { id := "blob0", name := "report.pdf", sizeOriginal := 1000 }

/-- Concrete stand-ins for the `lib/utils` helpers. -/
def utils0 : UtilsFns :=
  { getFileTypeType := fun _ => "document"
    getFileTypeExtension := fun _ => "pdf"
    constructFileUrl := fun fid => "https://example.com/" ++ fid }

/-- A concrete upload argument. -/
def fileUpload0 : FileUpload := { name := "report.pdf" }

/-- A `getFiles` argument with every optional field omitted. -/
def propsNone : GetFilesProps :=
  { types := none, searchText := none, sort := none, limit := none }

/-- A backend whose every call succeeds. -/
def beOk : Backend :=
  { createFileResult := Except.ok bucketFile0
    createDocumentResult := Except.ok { id := "doc0" }
    deleteBlobResult := fun _ _ => Except.ok ()
    deleteDocumentResult := Except.ok { id := "doc0" }
    updateDocumentResult := fun _ _ => Except.ok { id := "doc0" }
    listDocumentsResult := fun _ => Except.ok { documents := [] }
    currentUser := some user0 }

/-- A backend whose document-creation call rejects (upload compensation
scenario). -/
def beDocCreateFails : Backend :=
  { beOk with createDocumentResult := Except.error { message := "doc create failed" } }

/-- A backend whose document-deletion call rejects. -/
def beDocDeleteFails : Backend :=
  { beOk with deleteDocumentResult := Except.error { message := "doc delete failed" } }

/-- A backend whose list call rejects. -/
def beListFails : Backend :=
  { beOk with listDocumentsResult := fun _ => Except.error { message := "network down" } }

/-- A backend with no resolvable current user. -/
def beNoUser : Backend := { beOk with currentUser := none }

/-- A record with an unknown type string. -/
def weirdFile : RawFile := { type := "weird", size := 10, updatedAt := 1 }

/-- A backend whose list call returns one record of unknown type. -/
def beWeird : Backend :=
  { beOk with listDocumentsResult := fun _ => Except.ok { documents := [weirdFile] } }

/-- A record whose type names a property inherited from `Object.prototype`. -/
def protoFile : RawFile := { type := "toString", size := 7, updatedAt := 3 }

/-- A backend whose list call returns one record of the inherited-key type. -/
def beProto : Backend :=
  { beOk with listDocumentsResult := fun _ => Except.ok { documents := [protoFile] } }

/-- An image record with the earlier timestamp. -/
def imgEarly : RawFile := { type := "image", size := 100, updatedAt := 1 }

/-- An image record with the later timestamp. -/
def imgLate : RawFile := { type := "image", size := 50, updatedAt := 5 }

/-- Modelled from the spec: parse `sort` as `"<field>-<direction>"`, splitting
at the FIRST hyphen (the spec reads "split on the first/only hyphen"), with
direction `"asc"` giving ascending order and anything else descending.  Used
only to compare the spec's parse against the code's. -/
def specSortQuery (sort : String) : Query :=
  let field := String.mk (sort.toList.takeWhile (fun c => c ≠ '-'))
  let direction := String.mk ((sort.toList.dropWhile (fun c => c ≠ '-')).drop 1)
  if direction = "asc" then Query.orderAsc field else Query.orderDesc field

/-! The claims. -/

/-- C3: for every input tuple, the Query Builder's output list has as its
first element the visibility predicate `owner = currentUser.id OR users
contains currentUser.email`; no input displaces it from the first position. -/
theorem C3_visibility_first (u : UserDoc) (types : List String)
    (searchText sort : String) (limit : Option Nat) :
    (createQueries u types searchText sort limit).head? =
      some (Query.orQ [Query.equal "owner" [u.id],
                       Query.containsL "users" [u.email]]) := by
  unfold createQueries
  cases limit <;> dsimp only <;> split_ifs <;> rfl

/-- C5 counterexample: the claim reads the sort as split at the (first)
hyphen into field and direction, with any direction other than `"asc"`
(here `"asc-extra"`) giving a descending predicate.  On input
`sort = "size-asc-extra"` the spec's parse demands `orderDesc "size"`, but
the code splits at every hyphen, tests the second token `"asc"`, and
produces `orderAsc "size"`; no descending predicate appears at all. -/
theorem C5_counterexample :
    specSortQuery "size-asc-extra" = Query.orderDesc "size" ∧
    Query.orderAsc "size" ∈ createQueries user0 [] "" "size-asc-extra" none ∧
    Query.orderDesc "size" ∉ createQueries user0 [] "" "size-asc-extra" none := by
  refine ⟨by rfl, ?_, ?_⟩
  · have h : createQueries user0 [] "" "size-asc-extra" none =
        [Query.orQ [Query.equal "owner" [user0.id],
                    Query.containsL "users" [user0.email]],
         Query.orderAsc "size"] := by rfl
    rw [h]
    simp
  · have h : createQueries user0 [] "" "size-asc-extra" none =
        [Query.orQ [Query.equal "owner" [user0.id],
                    Query.containsL "users" [user0.email]],
         Query.orderAsc "size"] := by rfl
    rw [h]
    simp

/-- C5 (amended): when `sort` is nonempty it is split at every hyphen; the
field is the first token and the direction the second (tokens beyond the
second are ignored; for a sort with at most one hyphen this is exactly the
claim's field/direction split).  Direction `"asc"` yields an ascending-order
predicate on the field and any other second token (including `"desc"`) yields
descending; when the caller omits `sort`, `getFiles` defaults it to
`"$createdAt-desc"`, producing a descending predicate on `$createdAt`. -/
theorem C5_sort_parsing (u : UserDoc) (types : List String)
    (searchText sort : String) (limit : Option Nat) (h : sort ≠ "") :
    ((if (splitDash sort).getD 1 "" = "asc"
       then Query.orderAsc ((splitDash sort).headD "")
       else Query.orderDesc ((splitDash sort).headD "")) ∈
      createQueries u types searchText sort limit) ∧
    (∀ p : GetFilesProps, p.sort = none →
      Query.orderDesc "$createdAt" ∈ getFilesQueries u p) := by
  constructor
  · exact createQueries_sort_mem u types searchText sort limit h
  · intro p hp
    unfold getFilesQueries
    rw [hp]
    have hsplit : (splitDash "$createdAt-desc") = ["$createdAt", "desc"] := by rfl
    have hmem := createQueries_sort_mem u (p.types.getD []) (p.searchText.getD "")
      "$createdAt-desc" p.limit (by decide)
    rw [hsplit] at hmem
    simpa using hmem

/-- C5 witness: `sort = "size-asc"` yields an ascending-by-`size` predicate
and an omitted sort yields descending by creation time. -/
theorem C5_sort_parsing_witness :
    Query.orderAsc "size" ∈ createQueries user0 [] "" "size-asc" none ∧
    Query.orderDesc "$createdAt" ∈ getFilesQueries user0 propsNone := by
  have h := C5_sort_parsing user0 [] "" "size-asc" none (by decide)
  constructor
  · have hsplit : (splitDash "size-asc") = ["size", "asc"] := by rfl
    have h1 := h.1
    rw [hsplit] at h1
    simpa using h1
  · exact h.2 propsNone rfl

/-- C6: the Storage Aggregator's result depends only on the set of input
records, not their order: permuting the input list leaves the per-type sizes,
the grand `used` total and each bucket's `latestDate` (a running strict
maximum over the timestamps, from the unset sentinel) identical — including
the failure outcome when some record's type is unknown. -/
theorem C6_order_independent (l1 l2 : List RawFile) (h : l1.Perm l2) :
    aggregateFiles l1 = aggregateFiles l2 := by
  by_cases hall : ∀ f ∈ l1, addFileThrows f = false
  · have hall2 : ∀ f ∈ l2, addFileThrows f = false := by
      intro f hf
      exact hall f (h.mem_iff.mpr hf)
    rw [aggregateFiles, aggregateFiles, aggregate_of_all_known l1 hall,
      aggregate_of_all_known l2 hall2]
    exact congrArg Except.ok
      (h.foldl_eq' (fun x _ y _ z => addTotal_comm z x y) initialTotalSpace)
  · push_neg at hall
    obtain ⟨f, hf, hn⟩ := hall
    have hn' : addFileThrows f = true := by
      cases hfb : addFileThrows f
      · exact absurd hfb hn
      · rfl
    rw [aggregateFiles, aggregateFiles,
      aggregate_of_throwing l1 ⟨f, hf, hn'⟩ initialTotalSpace,
      aggregate_of_throwing l2 ⟨f, h.mem_iff.mp hf, hn'⟩ initialTotalSpace]

/-- C6 witness: two image records with timestamps 1 < 5, in either order,
aggregate identically, with `image.latestDate` the later timestamp. -/
theorem C6_order_independent_witness :
    aggregateFiles [imgEarly, imgLate] = aggregateFiles [imgLate, imgEarly] ∧
    aggregateFiles [imgEarly, imgLate] = Except.ok
      { image := { size := 150, latestDate := some 5 }
        document := { size := 0, latestDate := none }
        video := { size := 0, latestDate := none }
        audio := { size := 0, latestDate := none }
        other := { size := 0, latestDate := none }
        used := 150
        all := 2147483648 } := by
  refine ⟨C6_order_independent _ _ (List.Perm.swap imgLate imgEarly []), ?_⟩
  rfl

/-- C7: for an empty input record list, the aggregation returns all five type
buckets with `size = 0` and an unset `latestDate` (the `""` sentinel,
modelled as `none`), `used = 0`, and `all = 2147483648` (the fixed 2 GiB
quota constant). -/
theorem C7_empty_records (be : Backend) (u : UserDoc)
    (hu : be.currentUser = some u)
    (hl : be.listDocumentsResult [Query.equal "owner" [u.id]] =
      Except.ok { documents := [] }) :
    (getTotalSpaceUsed be).1 = Except.ok
      { image := { size := 0, latestDate := none }
        document := { size := 0, latestDate := none }
        video := { size := 0, latestDate := none }
        audio := { size := 0, latestDate := none }
        other := { size := 0, latestDate := none }
        used := 0
        all := 2147483648 } := by
  simp [getTotalSpaceUsed, hu, hl, aggregateFiles, aggregate, parseStringify,
    initialTotalSpace]

/-- C7 witness: the empty-list aggregation at a concrete backend. -/
theorem C7_empty_records_witness :
    (getTotalSpaceUsed beOk).1 = Except.ok
      { image := { size := 0, latestDate := none }
        document := { size := 0, latestDate := none }
        video := { size := 0, latestDate := none }
        audio := { size := 0, latestDate := none }
        other := { size := 0, latestDate := none }
        used := 0
        all := 2147483648 } :=
  C7_empty_records beOk user0 rfl rfl

/-- C10 counterexample: the claim says a record whose type is ANY string
outside the five categories makes `getTotalSpaceUsed` throw.  For
`type = "toString"` the dynamic index returns the member inherited from
`Object.prototype` — an extensible object — so the property writes succeed,
`used` absorbs the record's size, no bucket changes, and the call returns
normally instead of throwing. -/
theorem C10_counterexample :
    (getTotalSpaceUsed beProto).1 = Except.ok
      { image := { size := 0, latestDate := none }
        document := { size := 0, latestDate := none }
        video := { size := 0, latestDate := none }
        audio := { size := 0, latestDate := none }
        other := { size := 0, latestDate := none }
        used := 7
        all := 2147483648 } := by
  rfl

/-- C10 (amended): the Storage Aggregator is only total over the five known
type categories, but the failure mode depends on what the dynamic index
resolves to.  For a record whose type is any other string that is not a
property key inherited from `Object.prototype` — including the own numeric
keys `used`/`all` — `getTotalSpaceUsed` throws a `TypeError` rather than
counting the record as `other` or skipping it.  For a type naming an
inherited `Object.prototype` key (e.g. `"toString"`), the property writes
land on the inherited object: the call returns normally, with the record's
size added to `used` but to no bucket. -/
theorem C10_unknown_type_behavior (be : Backend) (u : UserDoc)
    (files : List RawFile) (f : RawFile)
    (hu : be.currentUser = some u)
    (hl : be.listDocumentsResult [Query.equal "owner" [u.id]] =
      Except.ok { documents := files })
    (hf : f ∈ files) :
    (addFileThrows f = true →
      (getTotalSpaceUsed be).1 = Except.error typeError) ∧
    (totalSpaceKey f.type = KeyLookup.inherited → files = [f] →
      (getTotalSpaceUsed be).1 =
        Except.ok { initialTotalSpace with used := f.size }) := by
  constructor
  · intro hthrow
    have hagg : aggregateFiles files = Except.error typeError :=
      aggregate_of_throwing files ⟨f, hf, hthrow⟩ initialTotalSpace
    simp [getTotalSpaceUsed, hu, hl, aggregateFiles, handleError] at hagg ⊢
    simp [hagg]
  · intro hinh hsingle
    subst hsingle
    have hagg : aggregateFiles [f] =
        Except.ok { initialTotalSpace with used := f.size } := by
      simp [aggregateFiles, aggregate, addFile, hinh, initialTotalSpace]
    simp [getTotalSpaceUsed, hu, hl, parseStringify, hagg]

/-- C10 witness: a `"weird"`-typed record makes the call throw; a
`"toString"`-typed record makes it return normally with the size in `used`. -/
theorem C10_unknown_type_behavior_witness :
    (getTotalSpaceUsed beWeird).1 = Except.error typeError ∧
    (getTotalSpaceUsed beProto).1 =
      Except.ok { initialTotalSpace with used := 7 } := by
  constructor
  · exact (C10_unknown_type_behavior beWeird user0 [weirdFile] weirdFile
      rfl rfl (by simp)).1 rfl
  · have h := (C10_unknown_type_behavior beProto user0 [protoFile] protoFile
      rfl rfl (by simp)).2 rfl rfl
    simpa [protoFile] using h

/-- C1: for Upload, if blob creation succeeds (returning `bucketFile`) and the
subsequent document creation fails, then `deleteFile` is invoked on the bucket
with exactly that blob's id — it appears in the call trace, i.e. before the
action returns — and, when the compensating delete resolves, the original
document-creation failure is what propagates to the caller. -/
theorem C1_upload_compensation (be : Backend) (utils : UtilsFns)
    (file : FileUpload) (ownerId accountId path : String)
    (bucketFile : BucketFile) (e : JsError)
    (hcf : be.createFileResult = Except.ok bucketFile)
    (hcd : be.createDocumentResult = Except.error e) :
    Event.deleteBlob appwriteConfig.bucketId bucketFile.id ∈
      (uploadFile be utils file ownerId accountId path).2 ∧
    (∃ e2, (uploadFile be utils file ownerId accountId path).1 =
      Except.error e2) ∧
    (be.deleteBlobResult appwriteConfig.bucketId bucketFile.id =
        Except.ok () →
      (uploadFile be utils file ownerId accountId path).1 = Except.error e) := by
  cases hdb : be.deleteBlobResult appwriteConfig.bucketId bucketFile.id <;>
    simp [uploadFile, hcf, hcd, hdb, handleError]

/-- C1 witness: concrete run in which blob creation succeeds, document
creation rejects and the compensating delete resolves. -/
theorem C1_upload_compensation_witness :
    Event.deleteBlob appwriteConfig.bucketId bucketFile0.id ∈
      (uploadFile beDocCreateFails utils0 fileUpload0 "owner" "acct" "/p").2 ∧
    (uploadFile beDocCreateFails utils0 fileUpload0 "owner" "acct" "/p").1 =
      Except.error { message := "doc create failed" } := by
  have h := C1_upload_compensation beDocCreateFails utils0 fileUpload0
    "owner" "acct" "/p" bucketFile0 { message := "doc create failed" } rfl rfl
  exact ⟨h.1, h.2.2 rfl⟩

/-- C2: for Delete, blob deletion is invoked iff the preceding document
deletion succeeded: if document deletion rejects, no blob deletion appears in
the trace (and the rejection propagates); if it resolves, blob deletion is
invoked with the given `bucketFileId` and, when that call also resolves, the
action returns the `{ status: "success" }` marker. -/
theorem C2_delete_sequencing (be : Backend) (fileId bucketFileId path : String) :
    (∀ e, be.deleteDocumentResult = Except.error e →
      (deleteFile be fileId bucketFileId path).1 = Except.error e ∧
      ∀ b f, Event.deleteBlob b f ∉ (deleteFile be fileId bucketFileId path).2) ∧
    (∀ d, be.deleteDocumentResult = Except.ok d →
      Event.deleteBlob appwriteConfig.bucketId bucketFileId ∈
        (deleteFile be fileId bucketFileId path).2 ∧
      (be.deleteBlobResult appwriteConfig.bucketId bucketFileId =
          Except.ok () →
        (deleteFile be fileId bucketFileId path).1 =
          Except.ok { status := "success" })) := by
  constructor
  · intro e he
    simp [deleteFile, he, handleError]
  · intro d hd
    cases hdb : be.deleteBlobResult appwriteConfig.bucketId bucketFileId <;>
      simp [deleteFile, hd, hdb, handleError, parseStringify]

/-- C2 witness: with a rejecting document deletion the error propagates, and
with everything resolving the success marker is returned. -/
theorem C2_delete_sequencing_witness :
    (deleteFile beDocDeleteFails "file0" "blob0" "/p").1 =
      Except.error { message := "doc delete failed" } ∧
    (deleteFile beOk "file0" "blob0" "/p").1 =
      Except.ok { status := "success" } := by
  refine ⟨((C2_delete_sequencing beDocDeleteFails "file0" "blob0" "/p").1
    { message := "doc delete failed" } rfl).1, ?_⟩
  exact ((C2_delete_sequencing beOk "file0" "blob0" "/p").2
    { id := "doc0" } rfl).2 rfl

/-- C4 counterexample: the claim says a backend failure is wrapped with a
human-readable message naming the failing operation.  With the list call
rejecting with the error `"network down"`, `getFiles` surfaces exactly that
original error: `handleError` discards its message argument
(`"Failed to get files"`), so nothing naming the operation is attached. -/
theorem C4_counterexample :
    (getFiles beListFails propsNone).1 =
      Except.error { message := "network down" } ∧
    handleError { message := "network down" } "Failed to get files" =
      { message := "network down" } := by
  exact ⟨rfl, rfl⟩

/-- C4 (amended): any backend call failure is surfaced to the caller as a
single uncaught error, rethrown UNCHANGED (the human-readable message passed
to the error handler is discarded, not attached); the failing call is made
exactly once (no retry), nothing is downgraded or suppressed, and the single
exception is Upload's compensation step, which runs one blob deletion before
rethrowing the original failure. -/
theorem C4_error_propagation (be : Backend) (e : JsError) :
    (∀ u p, be.currentUser = some u →
      be.listDocumentsResult (getFilesQueries u p) = Except.error e →
      (getFiles be p).1 = Except.error e ∧
      (getFiles be p).2 = [Event.listDocuments appwriteConfig.databaseId
        appwriteConfig.filesCollectionId (getFilesQueries u p)]) ∧
    (∀ fileId name extension path,
      be.updateDocumentResult fileId
        [("name", FieldVal.str (name ++ "." ++ extension))] = Except.error e →
      (renameFile be fileId name extension path).1 = Except.error e ∧
      (renameFile be fileId name extension path).2 =
        [Event.updateDocument appwriteConfig.databaseId
          appwriteConfig.filesCollectionId fileId
          [("name", FieldVal.str (name ++ "." ++ extension))]]) ∧
    (∀ fileId emails path,
      be.updateDocumentResult fileId [("users", FieldVal.strs emails)] =
        Except.error e →
      (updateFileUsers be fileId emails path).1 = Except.error e ∧
      (updateFileUsers be fileId emails path).2 =
        [Event.updateDocument appwriteConfig.databaseId
          appwriteConfig.filesCollectionId fileId
          [("users", FieldVal.strs emails)]]) ∧
    (∀ fileId bucketFileId path,
      be.deleteDocumentResult = Except.error e →
      (deleteFile be fileId bucketFileId path).1 = Except.error e ∧
      (deleteFile be fileId bucketFileId path).2 =
        [Event.deleteDocument appwriteConfig.databaseId
          appwriteConfig.filesCollectionId fileId]) ∧
    (∀ utils file ownerId accountId path,
      be.createFileResult = Except.error e →
      (uploadFile be utils file ownerId accountId path).1 = Except.error e ∧
      (uploadFile be utils file ownerId accountId path).2 =
        [Event.createFile appwriteConfig.bucketId]) ∧
    (∀ utils file ownerId accountId path bucketFile,
      be.createFileResult = Except.ok bucketFile →
      be.createDocumentResult = Except.error e →
      be.deleteBlobResult appwriteConfig.bucketId bucketFile.id =
        Except.ok () →
      (uploadFile be utils file ownerId accountId path).1 = Except.error e) ∧
    (∀ u, be.currentUser = some u →
      be.listDocumentsResult [Query.equal "owner" [u.id]] = Except.error e →
      (getTotalSpaceUsed be).1 = Except.error e ∧
      (getTotalSpaceUsed be).2 = [Event.listDocuments appwriteConfig.databaseId
        appwriteConfig.filesCollectionId [Query.equal "owner" [u.id]]]) := by
  refine ⟨?_, ?_, ?_, ?_, ?_, ?_, ?_⟩
  · intro u p hu hl
    simp [getFiles, hu, hl, handleError]
  · intro fileId name extension path hupd
    simp [renameFile, hupd, handleError]
  · intro fileId emails path hupd
    simp [updateFileUsers, hupd, handleError]
  · intro fileId bucketFileId path hdd
    simp [deleteFile, hdd, handleError]
  · intro utils file ownerId accountId path hcf
    simp [uploadFile, hcf, handleError]
  · intro utils file ownerId accountId path bucketFile hcf hcd hdb
    simp [uploadFile, hcf, hcd, hdb, handleError]
  · intro u hu hl
    simp [getTotalSpaceUsed, hu, hl, handleError]

/-- C4 witness: the list call rejects with `"network down"` and `getFiles`
surfaces exactly that error after exactly one list call. -/
theorem C4_error_propagation_witness :
    (getFiles beListFails propsNone).1 =
      Except.error { message := "network down" } ∧
    (getFiles beListFails propsNone).2 =
      [Event.listDocuments appwriteConfig.databaseId
        appwriteConfig.filesCollectionId (getFilesQueries user0 propsNone)] :=
  (C4_error_propagation beListFails { message := "network down" }).1
    user0 propsNone rfl rfl

/-- C8: for List and GetTotalSpaceUsed, when no current user can be resolved
the operation fails with the authentication error and no list query is issued
against the document database (the call trace is empty). -/
theorem C8_auth_before_list (be : Backend) (p : GetFilesProps)
    (h : be.currentUser = none) :
    (getFiles be p).1 = Except.error { message := "User not found" } ∧
    (getFiles be p).2 = [] ∧
    (getTotalSpaceUsed be).1 =
      Except.error { message := "User is not authenticated." } ∧
    (getTotalSpaceUsed be).2 = [] := by
  simp [getFiles, getTotalSpaceUsed, h, handleError]

/-- C8 witness: the unauthenticated backend. -/
theorem C8_auth_before_list_witness :
    (getFiles beNoUser propsNone).1 =
      Except.error { message := "User not found" } ∧
    (getFiles beNoUser propsNone).2 = [] ∧
    (getTotalSpaceUsed beNoUser).1 =
      Except.error { message := "User is not authenticated." } ∧
    (getTotalSpaceUsed beNoUser).2 = [] :=
  C8_auth_before_list beNoUser propsNone rfl

/-- Recognizer for document-update calls in a trace. -/
def isUpdateEvent : Event → Bool
  | Event.updateDocument _ _ _ _ => true
  | _ => false

/-- C9: every Rename sends exactly one update to the database, whose payload
sets the target record's `name` field to exactly
`"<newBaseName>.<extension>"` and contains no other field. -/
theorem C9_rename_frame (be : Backend) (fileId name extension path : String) :
    ((renameFile be fileId name extension path).2.filter isUpdateEvent) =
      [Event.updateDocument appwriteConfig.databaseId
        appwriteConfig.filesCollectionId fileId
        [("name", FieldVal.str (name ++ "." ++ extension))]] := by
  rcases hres : be.updateDocumentResult fileId
      [("name", FieldVal.str (name ++ "." ++ extension))] with e | d <;>
    simp [renameFile, hres, isUpdateEvent]

end StoreIt
